import Mathlib

/-!
Verification of the `pydocusign` DocuSign client (`pydocusign/client.py`)
against its specification.  The Python code is shallowly embedded: the
client object becomes a record, every HTTP-performing method becomes a pure
function that receives the network's answer as an explicit argument and
returns both the request it would send and the Python-level outcome
(normal return or raised exception, as an `Except`).
-/

/-- Decoded JSON values, the result of `json.loads` / `response.json()`.
Numbers are modelled as integers (every numeric field the client touches is
an integer or a string). -/
inductive Json where
  | null : Json
  | bool (b : Bool) : Json
  | num (n : Int) : Json
  | str (s : String) : Json
  | arr (xs : List Json) : Json
  | obj (kvs : List (String × Json)) : Json

/-- Lookup of a key in a JSON object's key/value list (Python `d[k]` /
`d.get(k)` on a dict decoded from JSON; keys are unique, first match). -/
def Json.lookup : Json → String → Option Json
  | .obj kvs, k => kvs.lookup k
  | _, _ => none

/-- Python truthiness of a decoded JSON value (`if not x:`): `None`, `False`,
`0`, empty string, empty list and empty dict are falsy. -/
def Json.falsy : Json → Bool
  | .null => true
  | .bool b => !b
  | .num n => n == 0
  | .str s => s == ""
  | .arr xs => xs.isEmpty
  | .obj kvs => kvs.isEmpty

mutual

/-- `json.dumps` with the Python 2 default separators `, ` and `: `.
String escaping is limited to quote and backslash (no control characters
appear in the data the client serializes). -/
def Json.dumps : Json → String
  | .null => "null"
  | .bool b => if b then "true" else "false"
  | .num n => toString n
  | .str s => "\"" ++ Json.escape s.data ++ "\""
  | .arr xs => "[" ++ String.intercalate ", " (Json.dumpsList xs) ++ "]"
  | .obj kvs => "\x7b" ++ String.intercalate ", " (Json.dumpsObj kvs) ++ "\x7d"

def Json.dumpsList : List Json → List String
  | [] => []
  | x :: xs => Json.dumps x :: Json.dumpsList xs

def Json.dumpsObj : List (String × Json) → List String
  | [] => []
  | (k, v) :: kvs =>
      (Json.dumps (Json.str k) ++ ": " ++ Json.dumps v) :: Json.dumpsObj kvs

def Json.escape : List Char → String
  | [] => ""
  | c :: cs =>
      (if c = '"' then "\\\"" else if c = '\\' then "\\\\"
       else String.singleton c) ++ Json.escape cs

end

/-- Python `str()` on a decoded JSON value, as used when such a value is
interpolated into a format string.  The client only ever formats scalar
fields (account IDs, document IDs); containers fall back to their JSON
serialization. -/
def pyStr : Json → String
  | .str s => s
  | .num n => toString n
  | .bool b => if b then "True" else "False"
  | .null => "None"
  | j => Json.dumps j

/-- Python `isinstance(x, collections.Iterable)` on a decoded JSON value:
lists, strings and dicts are iterable; `None`, booleans and numbers are
not. -/
def Json.iterable : Json → Bool
  | .arr _ => true
  | .str _ => true
  | .obj _ => true
  | _ => false

/-- Python iteration over an iterable decoded JSON value: a list yields its
elements, a string its characters, a dict its keys.  (Only called under an
`iterable` guard; the catch-all is a dummy.) -/
def Json.iter : Json → List Json
  | .arr xs => xs
  | .str s => s.data.map (fun c => Json.str (String.singleton c))
  | .obj kvs => kvs.map (fun kv => Json.str kv.1)
  | j => [j]

/-- String-valued Python dict, as an insertion-ordered key/value list. -/
abbrev Dict := List (String × String)

/-- Python dict assignment `d[k] = v`: replace the value at `k` if present,
else append. -/
def dset : Dict → String → String → Dict
  | [], k, v => [(k, v)]
  | (k', v') :: rest, k, v =>
      if k' = k then (k, v) :: rest else (k', v') :: dset rest k v

/-- Python `d.get(k)` on a string dict. -/
def dget (d : Dict) (k : String) : Option String := d.lookup k

/-- Python `d.update(e)`: assign every pair of `e` into `d`, in order. -/
def dupdate (d : Dict) (e : Dict) : Dict :=
  e.foldl (fun acc kv => dset acc kv.1 kv.2) d

/-- Truthiness of an optional string parameter (`if sobo_email:`): absent
(`None`) and the empty string are falsy. -/
def optTruthy : Option String → Bool
  | none => false
  | some s => s ≠ ""

/-- Python 2 `urllib.quote_plus` with the default empty `safe` set: a space
becomes `+`; letters, digits, `_`, `.` and `-` pass through; every other
character is percent-encoded byte by byte (upper-case hex). -/
def hexUpper (n : Nat) : Char :=
  if n < 10 then Char.ofNat (48 + n) else Char.ofNat (55 + n)

def percentByte (b : Nat) : String :=
  "%" ++ String.singleton (hexUpper (b / 16)) ++ String.singleton (hexUpper (b % 16))

def alwaysSafe (c : Char) : Bool :=
  c.isAlpha || c.isDigit || c = '_' || c = '.' || c = '-'

def quote_plus (s : String) : String :=
  String.join (s.data.map (fun c =>
    if c = ' ' then "+"
    else if alwaysSafe c then String.singleton c
    else String.join (((String.singleton c).toUTF8.toList).map
      (fun b => percentByte b.toNat))))

/-- Python 2 `urllib.urlencode` on a dict of strings (insertion order). -/
def urlencode (params : Dict) : String :=
  String.intercalate "&" (params.map
    (fun kv => quote_plus kv.1 ++ "=" ++ quote_plus kv.2))

/-- The `Response` namedtuple of `client.py` (pycurl path):
`Response = namedtuple('Response', ['status_code', 'text'])`. -/
structure Response where
  status_code : Nat
  text : String
deriving DecidableEq

/-- The argument a raised exception carries: Python exceptions take an
arbitrary object - here a message string, a `Response` namedtuple, or a
decoded JSON body. -/
inductive ExcVal where
  | str (s : String) : ExcVal
  | resp (r : Response) : ExcVal
  | json (j : Json) : ExcVal

/-- Modelled from the spec: the exception types the client raises.
`pydocusign/exceptions.py` is not part of the sources in scope; the spec
states that unexpected statuses raise a generic client exception carrying
the response and that OAuth2 failures raise a separate exception type.
The remaining constructors are Python built-in exceptions that the
client's own code can surface. -/
inductive PyError where
  | docuSignException (arg : ExcVal) : PyError
  | docuSignOAuth2Exception (arg : ExcVal) : PyError
  | valueError (msg : String) : PyError
  | keyError (key : String) : PyError
  | typeError (msg : String) : PyError
  | attributeError (msg : String) : PyError
  | requestException (msg : String) : PyError

/-- An HTTP response as the `requests` library presents it: status code,
text body, headers (looked up case-insensitively, as `requests` does), and
`jsonBody`, the value `response.json()` decodes from the body (the vendor
is a fixed collaborator answering JSON, so the decoded value is part of the
modelled response). -/
structure HttpResponse where
  status_code : Nat
  text : String
  headers : Dict
  jsonBody : Json

/-- ASCII lower-casing (header names are ASCII). -/
def lowerChar (c : Char) : Char :=
  if 'A' ≤ c ∧ c ≤ 'Z' then Char.ofNat (c.toNat + 32) else c

def lowerStr (s : String) : String := String.mk (s.data.map lowerChar)

/-- `response.headers.get(k, '')` - `requests` header lookup is
case-insensitive. -/
def respHeaderGet (r : HttpResponse) (k : String) : String :=
  match r.headers.find? (fun kv => lowerStr kv.1 == lowerStr k) with
  | some kv => kv.2
  | none => ""

/-- The network's answer to one HTTP call: a response, or a
`requests.exceptions.RequestException` carrying a message. -/
abbrev NetResult := Except String HttpResponse

/-- Python `str.startswith`. -/
def startswith (s p : String) : Bool := s.data.take p.data.length == p.data

/-- The HTTP request a method would send: everything `client.py` hands to
the `requests` dispatch (or to pycurl). -/
structure HttpRequest where
  url : String
  method : String
  headers : Dict
  body : Option String
deriving DecidableEq

/-- The client-side configuration fields of `DocuSignClient.__init__`
(after the constructor's environment-variable fallbacks, every credential
field is a string, empty meaning unset).  `timeout` holds the value the
`set_timeout` property setter stored. -/
structure DocuSignClient where
  root_url : String
  username : String
  password : String
  integrator_key : String
  account_id : String
  app_token : String
  oauth2_token : String
  account_url : String
  timeout : ℚ
deriving DecidableEq

namespace DocuSignClient

/-- Python `int()` (truncation toward zero) on a rational. -/
def pyInt (q : ℚ) : ℤ := if 0 ≤ q then ⌊q⌋ else ⌈q⌉

/-- `DocuSignClient.set_timeout`: reject values below 0.001, else store the
value truncated to millisecond precision (`int(value * 1000) / 1000.`). -/
def set_timeout (value : ℚ) : Except PyError ℚ :=
  if value < 1 / 1000 then
    .error (.valueError "Cannot set timeout lower than 0.001")
  else
    .ok ((pyInt (value * 1000) : ℚ) / 1000)

/-- The timeout logic of `DocuSignClient.__init__`: a `None` timeout falls
back to `float(os.environ.get('DOCUSIGN_TIMEOUT', 30))` (the parsed
environment override, or 30); the chosen value goes through the
`set_timeout` property setter. -/
def init_timeout (timeout : Option ℚ) (envTimeout : Option ℚ) :
    Except PyError ℚ :=
  set_timeout (timeout.getD (envTimeout.getD 30))

/-- The `X-DocuSign-Authentication` payload of `base_headers`: the dict
built from `Username`, `Password`, `IntegratorKey`, plus `SendOnBehalfOf`
when `sobo_email` is truthy. -/
def authDict (c : DocuSignClient) (sobo_email : Option String) : Json :=
  Json.obj
    ([("Username", Json.str c.username),
      ("Password", Json.str c.password),
      ("IntegratorKey", Json.str c.integrator_key)] ++
     (if optTruthy sobo_email then
        [("SendOnBehalfOf", Json.str (sobo_email.getD ""))] else []))

/-- `DocuSignClient.base_headers`. -/
def base_headers (c : DocuSignClient) (sobo_email : Option String) : Dict :=
  let headers : Dict :=
    [("Accept", "application/json"), ("Content-Type", "application/json")]
  if c.oauth2_token ≠ "" then
    let headers := dset headers "Authorization" ("Bearer " ++ c.oauth2_token)
    if optTruthy sobo_email then
      dset headers "X-DocuSign-Act-As-User" (sobo_email.getD "")
    else headers
  else
    dset headers "X-DocuSign-Authentication" (Json.dumps (c.authDict sobo_email))

/-- The message of the `DocuSignException` raised when the underlying
`requests` call itself fails. -/
def requestErrorMsg (method url exc : String) : String :=
  "DocuSign request error: " ++ method ++ " " ++ url ++ " failed ; " ++
  "Error: " ++ exc

/-- The message of the `DocuSignException` raised on an unexpected status
code (the format string of `_request`, trailing ` ; ` included). -/
def requestFailedMsg (method url : String) (status expected : Nat)
    (message : String) : String :=
  "DocuSign request failed: " ++ method ++ " " ++ url ++
  " returned code " ++ toString status ++
  " while expecting code " ++ toString expected ++
  "; Message: " ++ message ++ " ; "

/-- Whether `if file_data:` takes the file payload (truthy file object:
present and non-empty bytes). -/
def fileTruthy : Option String → Bool
  | none => false
  | some s => s ≠ ""

/-- `DocuSignClient._request`: build the full URL, merge the base headers
with the caller's, JSON-encode `data` unless truthy `file_data` replaces
it, dispatch, then translate the outcome: a transport error or an
unexpected status code raises `DocuSignException`; otherwise the decoded
JSON is returned when the response's `Content-Type` starts with
`application/json`, the plain text otherwise.  The function returns the
request it sent alongside the Python outcome. -/
def _request (c : DocuSignClient) (url : String) (method : String)
    (headers : Option Dict) (data : Option Json) (file_data : Option String)
    (expected_status_code : Nat) (sobo_email : Option String)
    (net : NetResult) : HttpRequest × Except PyError (Json ⊕ String) :=
  let do_url := c.root_url ++ url
  let hdrs := headers.getD []
  let do_headers := dupdate (c.base_headers sobo_email) hdrs
  let do_data : Option String :=
    if fileTruthy file_data then file_data else data.map Json.dumps
  let req : HttpRequest := ⟨do_url, method, do_headers, do_data⟩
  match net with
  | .error exc =>
      (req, .error (.docuSignException (.str (requestErrorMsg method do_url exc))))
  | .ok response =>
      if response.status_code ≠ expected_status_code then
        (req, .error (.docuSignException (.str
          (requestFailedMsg method do_url response.status_code
            expected_status_code response.text))))
      else if startswith (respHeaderGet response "Content-Type")
          "application/json" then
        (req, .ok (.inl response.jsonBody))
      else
        (req, .ok (.inr response.text))

/-- `DocuSignClient.get`. -/
def get (c : DocuSignClient) (url : String) (headers : Option Dict)
    (data : Option Json) (file_data : Option String)
    (expected_status_code : Nat) (sobo_email : Option String)
    (net : NetResult) : HttpRequest × Except PyError (Json ⊕ String) :=
  c._request url "GET" headers data file_data expected_status_code sobo_email net

/-- `DocuSignClient.post`. -/
def post (c : DocuSignClient) (url : String) (headers : Option Dict)
    (data : Option Json) (file_data : Option String)
    (expected_status_code : Nat) (sobo_email : Option String)
    (net : NetResult) : HttpRequest × Except PyError (Json ⊕ String) :=
  c._request url "POST" headers data file_data expected_status_code sobo_email net

/-- `DocuSignClient.put`. -/
def put (c : DocuSignClient) (url : String) (headers : Option Dict)
    (data : Option Json) (file_data : Option String)
    (expected_status_code : Nat) (sobo_email : Option String)
    (net : NetResult) : HttpRequest × Except PyError (Json ⊕ String) :=
  c._request url "PUT" headers data file_data expected_status_code sobo_email net

/-- `DocuSignClient.delete`. -/
def delete (c : DocuSignClient) (url : String) (headers : Option Dict)
    (data : Option Json) (file_data : Option String)
    (expected_status_code : Nat) (sobo_email : Option String)
    (net : NetResult) : HttpRequest × Except PyError (Json ⊕ String) :=
  c._request url "DELETE" headers data file_data expected_status_code sobo_email net

/-- `DocuSignClient.login_information`: GET `/login_information`, then
store the first login account's `accountId` in `account_id`, rebuild
`account_url` from it, and return the decoded response.  Subscripting a
non-JSON (text) response, a missing `loginAccounts` key, an empty or
non-list account list, or a missing `accountId` key raise the
corresponding Python built-in exceptions before any field is mutated. -/
def login_information (c : DocuSignClient) (net : NetResult) :
    Except PyError (DocuSignClient × Json) :=
  match (c.get "/login_information" (some []) none none 200 none net).2 with
  | .error e => .error e
  | .ok (.inr _) => .error (.typeError "string indices must be integers")
  | .ok (.inl data) =>
      match data.lookup "loginAccounts" with
      | none => .error (.keyError "loginAccounts")
      | some (Json.arr (first :: _)) =>
          match first.lookup "accountId" with
          | none => .error (.keyError "accountId")
          | some aid =>
              let account_id := pyStr aid
              .ok ({ c with
                      account_id := account_id,
                      account_url :=
                        c.root_url ++ "/accounts/" ++ account_id }, data)
      | some (Json.arr []) => .error (.keyError "list index out of range")
      | some _ => .error (.typeError "not subscriptable by integer")

/-- `DocuSignClient.oauth2_token_request` (classmethod): POST the password
grant to `/oauth2/token`; a non-200 status raises
`DocuSignOAuth2Exception` carrying the decoded response; on 200 the
`access_token` field of the decoded response is returned.  A transport
failure of the plain `requests.post` call propagates uncaught. -/
def oauth2_token_request (root_url username password integrator_key : String)
    (net : NetResult) : HttpRequest × Except PyError Json :=
  let url := root_url ++ "/oauth2/token"
  let data : Dict :=
    [("grant_type", "password"),
     ("client_id", integrator_key),
     ("username", username),
     ("password", password),
     ("scope", "api")]
  let headers : Dict :=
    [("Accept", "application/json"),
     ("Content-Type", "application/x-www-form-urlencoded")]
  let req : HttpRequest := ⟨url, "POST", headers, some (urlencode data)⟩
  match net with
  | .error exc => (req, .error (.requestException exc))
  | .ok response =>
      if response.status_code ≠ 200 then
        (req, .error (.docuSignOAuth2Exception (.json response.jsonBody)))
      else
        match response.jsonBody.lookup "access_token" with
        | some v => (req, .ok v)
        | none => (req, .error (.keyError "access_token"))

/-- `DocuSignClient.oauth2_token_revoke` (classmethod): POST the token to
`/oauth2/revoke`; a non-200 status raises `DocuSignOAuth2Exception`
carrying the decoded response; on 200 nothing is returned. -/
def oauth2_token_revoke (root_url token : String) (net : NetResult) :
    HttpRequest × Except PyError Unit :=
  let url := root_url ++ "/oauth2/revoke"
  let data : Dict := [("token", token)]
  let headers : Dict :=
    [("Accept", "application/json"),
     ("Content-Type", "application/x-www-form-urlencoded")]
  let req : HttpRequest := ⟨url, "POST", headers, some (urlencode data)⟩
  match net with
  | .error exc => (req, .error (.requestException exc))
  | .ok response =>
      if response.status_code ≠ 200 then
        (req, .error (.docuSignOAuth2Exception (.json response.jsonBody)))
      else
        (req, .ok ())

/-- `DocuSignClient.get_account_information`: when `account_id` is `None`
the cached `account_url` is used as path; otherwise the path is built from
`self.account_id` - the argument's value itself is never used. -/
def get_account_information (c : DocuSignClient) (account_id : Option String)
    (net : NetResult) : HttpRequest × Except PyError (Json ⊕ String) :=
  let url :=
    match account_id with
    | none => c.account_url
    | some _ => "/accounts/" ++ c.account_id ++ "/"
  c.get url none none none 200 none net

end DocuSignClient

/-- One HTTP interaction in a method's trace: the `login_information`
prelude (itself a GET of `/login_information`), a call through the
`_request` helper, a raw streaming `requests.get`, or the pycurl POST of
`_create_envelope`. -/
inductive Call where
  | login : Call
  | request (method : String) (url : String) : Call
  | rawGet (url : String) : Call
  | curlPost (url : String) : Call
deriving DecidableEq

/-- Outcome of running one client method: the HTTP calls it made in order,
the client state afterwards, and the Python result. -/
structure MRun (α : Type) where
  calls : List Call
  client : DocuSignClient
  result : Except PyError α

/-- A file-like object (`document.data`): its bytes and the current read
position. -/
structure FileObj where
  content : String
  pos : Nat

/-- `f.seek(0)` followed by `f.read()`: the whole content, regardless of
the previous position. -/
def FileObj.seek0Read (f : FileObj) : String := f.content

/-- The attributes of a `pydocusign.models.Document` that `client.py`
reads (the models module is outside the sources in scope; the fields
mirror exactly the attribute accesses `document.name`,
`document.documentId`, `document.data`). -/
structure Document where
  name : String
  documentId : String
  data : FileObj

/-- The attributes of a `pydocusign.models.Envelope` that `client.py`
reads and writes: `to_dict()` (its JSON payload, kept as a value),
`documents`, `sobo_email`, and the mutable `client` and `envelopeId`
attributes (`client` is an object or `None`; `envelopeId` is whatever the
server returned, falsy when unset). -/
structure Envelope where
  to_dict : Json
  documents : List Document
  sobo_email : Option String
  client : Option DocuSignClient
  envelopeId : Json

namespace DocuSignClient

/-- The recurring prelude `if not self.account_url:
self.login_information()`: when `account_url` is empty, perform the login
call (recorded as `Call.login`) and continue with the mutated client; a
failing login propagates its exception.  When `account_url` is non-empty,
no call is made. -/
def ensureAccount (c : DocuSignClient) (loginNet : NetResult) :
    List Call × Except PyError DocuSignClient :=
  if c.account_url = "" then
    match c.login_information loginNet with
    | .error e => ([Call.login], .error e)
    | .ok (c', _) => ([Call.login], .ok c')
  else ([], .ok c)

/-- Shape shared by every account-scoped method: run the `ensureAccount`
prelude, then the method's own body on the (possibly login-updated)
client; a failing login leaves the client untouched and propagates. -/
def accountMethod (c : DocuSignClient) (loginNet : NetResult)
    (k : DocuSignClient → List Call × Except PyError α) : MRun α :=
  let pre := ensureAccount c loginNet
  match pre.2 with
  | .error e => ⟨pre.1, c, .error e⟩
  | .ok c' =>
      let body := k c'
      ⟨pre.1 ++ body.1, c', body.2⟩

/-- `DocuSignClient.get_envelope`. -/
def get_envelope (c : DocuSignClient) (envelope_id : String)
    (loginNet ownNet : NetResult) : MRun (Json ⊕ String) :=
  accountMethod c loginNet (fun c' =>
    let url := "/accounts/" ++ c'.account_id ++ "/envelopes/" ++
      envelope_id ++ "/"
    let r := c'.get url none none none 200 none ownNet
    ([Call.request "GET" r.1.url], r.2))

/-- `DocuSignClient.get_envelope_custom_fields`. -/
def get_envelope_custom_fields (c : DocuSignClient) (envelope_id : String)
    (loginNet ownNet : NetResult) : MRun (Json ⊕ String) :=
  accountMethod c loginNet (fun c' =>
    let url := "/accounts/" ++ c'.account_id ++ "/envelopes/" ++
      envelope_id ++ "/custom_fields/"
    let r := c'.get url none none none 200 none ownNet
    ([Call.request "GET" r.1.url], r.2))

/-- `DocuSignClient.post_envelope_custom_fields` (expects status 201). -/
def post_envelope_custom_fields (c : DocuSignClient) (envelope_id : String)
    (text_custom_fields list_custom_fields : Json)
    (loginNet ownNet : NetResult) : MRun (Json ⊕ String) :=
  accountMethod c loginNet (fun c' =>
    let url := "/accounts/" ++ c'.account_id ++ "/envelopes/" ++
      envelope_id ++ "/custom_fields/"
    let data := Json.obj
      [("textCustomFields", text_custom_fields),
       ("listCustomFields", list_custom_fields)]
    let r := c'.post url none (some data) none 201 none ownNet
    ([Call.request "POST" r.1.url], r.2))

/-- `DocuSignClient.put_envelope_custom_fields` (expects status 201). -/
def put_envelope_custom_fields (c : DocuSignClient) (envelope_id : String)
    (text_custom_fields list_custom_fields : Json)
    (loginNet ownNet : NetResult) : MRun (Json ⊕ String) :=
  accountMethod c loginNet (fun c' =>
    let url := "/accounts/" ++ c'.account_id ++ "/envelopes/" ++
      envelope_id ++ "/custom_fields/"
    let data := Json.obj
      [("textCustomFields", text_custom_fields),
       ("listCustomFields", list_custom_fields)]
    let r := c'.put url none (some data) none 201 none ownNet
    ([Call.request "PUT" r.1.url], r.2))

/-- `DocuSignClient.void_envelope`. -/
def void_envelope (c : DocuSignClient) (envelope_id : String)
    (voidedReason : Json) (loginNet ownNet : NetResult) :
    MRun (Json ⊕ String) :=
  accountMethod c loginNet (fun c' =>
    let url := "/accounts/" ++ c'.account_id ++ "/envelopes/" ++
      envelope_id ++ "/"
    let data := Json.obj
      [("status", Json.str "voided"), ("voidedReason", voidedReason)]
    let r := c'.put url none (some data) none 200 none ownNet
    ([Call.request "PUT" r.1.url], r.2))

/-- `DocuSignClient.send_envelope`. -/
def send_envelope (c : DocuSignClient) (envelope_id : String)
    (loginNet ownNet : NetResult) : MRun (Json ⊕ String) :=
  accountMethod c loginNet (fun c' =>
    let url := "/accounts/" ++ c'.account_id ++ "/envelopes/" ++
      envelope_id ++ "/"
    let data := Json.obj [("status", Json.str "sent")]
    let r := c'.put url none (some data) none 200 none ownNet
    ([Call.request "PUT" r.1.url], r.2))

/-- `DocuSignClient.delete_envelope` (`*envelope_ids`): move envelopes to
the recycle bin. -/
def delete_envelope (c : DocuSignClient) (envelope_ids : List String)
    (loginNet ownNet : NetResult) : MRun (Json ⊕ String) :=
  accountMethod c loginNet (fun c' =>
    let url := "/accounts/" ++ c'.account_id ++ "/folders/recyclebin/"
    let data := Json.obj
      [("envelopeIds", Json.arr (envelope_ids.map Json.str))]
    let r := c'.put url none (some data) none 200 none ownNet
    ([Call.request "PUT" r.1.url], r.2))

/-- `DocuSignClient.search_envelopes`: query parameters are `from_date`,
then `custom_field` (when both the field name and its value are truthy),
then `status` (when truthy). -/
def search_envelopes (c : DocuSignClient)
    (custom_field custom_field_value status : Option String)
    (from_date : String) (loginNet ownNet : NetResult) :
    MRun (Json ⊕ String) :=
  accountMethod c loginNet (fun c' =>
    let url := "/accounts/" ++ c'.account_id ++ "/envelopes/"
    let params : Dict := [("from_date", from_date)]
    let params := params ++
      (if optTruthy custom_field && optTruthy custom_field_value then
        [("custom_field",
          custom_field.getD "" ++ "=" ++ custom_field_value.getD "")]
       else [])
    let params := params ++
      (if optTruthy status then [("status", status.getD "")] else [])
    let r := c'.get (url ++ "?" ++ urlencode params) none none none 200 none
      ownNet
    ([Call.request "GET" r.1.url], r.2))

/-- `DocuSignClient.get_envelope_recipients`. -/
def get_envelope_recipients (c : DocuSignClient) (envelopeId : String)
    (loginNet ownNet : NetResult) : MRun (Json ⊕ String) :=
  accountMethod c loginNet (fun c' =>
    let url := "/accounts/" ++ c'.account_id ++ "/envelopes/" ++
      envelopeId ++ "/recipients"
    let r := c'.get url none none none 200 none ownNet
    ([Call.request "GET" r.1.url], r.2))

/-- `DocuSignClient.post_recipient_view` (expects status 201); a `None`
`authenticationMethod` becomes `'none'`. -/
def post_recipient_view (c : DocuSignClient)
    (authenticationMethod : Option String)
    (clientUserId email envelopeId returnUrl userId userName : String)
    (loginNet ownNet : NetResult) : MRun (Json ⊕ String) :=
  accountMethod c loginNet (fun c' =>
    let url := "/accounts/" ++ c'.account_id ++ "/envelopes/" ++
      envelopeId ++ "/views/recipient"
    let am := authenticationMethod.getD "none"
    let data := Json.obj
      [("authenticationMethod", Json.str am),
       ("clientUserId", Json.str clientUserId),
       ("email", Json.str email),
       ("envelopeId", Json.str envelopeId),
       ("returnUrl", Json.str returnUrl),
       ("userId", Json.str userId),
       ("userName", Json.str userName)]
    let r := c'.post url none (some data) none 201 none ownNet
    ([Call.request "POST" r.1.url], r.2))

/-- `DocuSignClient.put_envelope_recipients`. -/
def put_envelope_recipients (c : DocuSignClient) (envelope_id : String)
    (data : Json) (params : Dict) (loginNet ownNet : NetResult) :
    MRun (Json ⊕ String) :=
  accountMethod c loginNet (fun c' =>
    let url := "/accounts/" ++ c'.account_id ++ "/envelopes/" ++
      envelope_id ++ "/recipients/"
    let url := url ++ "?" ++ urlencode params
    let r := c'.put url none (some data) none 200 none ownNet
    ([Call.request "PUT" r.1.url], r.2))

/-- `DocuSignClient.get_envelope_document_list`: returns
`data['envelopeDocuments']` of the decoded response (subscripting a text
response or a missing key raise the Python built-in exceptions). -/
def get_envelope_document_list (c : DocuSignClient) (envelopeId : String)
    (loginNet ownNet : NetResult) : MRun Json :=
  accountMethod c loginNet (fun c' =>
    let url := "/accounts/" ++ c'.account_id ++ "/envelopes/" ++
      envelopeId ++ "/documents"
    let r := c'.get url none none none 200 none ownNet
    ([Call.request "GET" r.1.url],
     match r.2 with
     | .error e => .error e
     | .ok (.inr _) => .error (.typeError "string indices must be integers")
     | .ok (.inl data) =>
         match data.lookup "envelopeDocuments" with
         | none => .error (.keyError "envelopeDocuments")
         | some v => .ok v))

/-- `DocuSignClient.get_envelope_document`: a raw streaming
`requests.get` of the full document URL (no status check); the result is
the response's raw byte stream, a transport failure propagates as the
`requests` exception. -/
def get_envelope_document (c : DocuSignClient)
    (envelopeId documentId : String) (loginNet ownNet : NetResult) :
    MRun String :=
  accountMethod c loginNet (fun c' =>
    let url := c'.root_url ++ "/accounts/" ++ c'.account_id ++
      "/envelopes/" ++ envelopeId ++ "/documents/" ++ documentId
    ([Call.rawGet url],
     match ownNet with
     | .error exc => .error (.requestException exc)
     | .ok response => .ok response.text))

/-- `DocuSignClient.upload_document_to_envelope`: PUT of raw file data
with `Content-Disposition`/`Content-Type` headers. -/
def upload_document_to_envelope (c : DocuSignClient)
    (envelope_id document_id content_type filename : String)
    (file_data : Option String) (loginNet ownNet : NetResult) :
    MRun (Json ⊕ String) :=
  accountMethod c loginNet (fun c' =>
    let url := "/accounts/" ++ c'.account_id ++ "/envelopes/" ++
      envelope_id ++ "/documents/" ++ document_id
    let headers : Dict :=
      [("Content-Disposition", "filename=\"" ++ filename ++ "\""),
       ("Content-Type", content_type)]
    let r := c'.put url (some headers) none file_data 200 none ownNet
    ([Call.request "PUT" r.1.url], r.2))

/-- `DocuSignClient.delete_envelope_documents`: a non-iterable
`document_ids` argument is wrapped in a singleton list; the payload is
empty when the resulting document list is. -/
def delete_envelope_documents (c : DocuSignClient) (envelope_id : String)
    (document_ids : Json) (loginNet ownNet : NetResult) :
    MRun (Json ⊕ String) :=
  accountMethod c loginNet (fun c' =>
    let url := "/accounts/" ++ c'.account_id ++ "/envelopes/" ++
      envelope_id ++ "/documents/"
    let ids := if document_ids.iterable then document_ids.iter
      else [document_ids]
    let document_list := ids.map (fun i => Json.obj [("documentId", i)])
    let data := if document_list.isEmpty then Json.obj []
      else Json.obj [("documents", Json.arr document_list)]
    let r := c'.delete url none (some data) none 200 none ownNet
    ([Call.request "DELETE" r.1.url], r.2))

/-- `DocuSignClient.get_template`. -/
def get_template (c : DocuSignClient) (templateId : String)
    (loginNet ownNet : NetResult) : MRun (Json ⊕ String) :=
  accountMethod c loginNet (fun c' =>
    let url := "/accounts/" ++ c'.account_id ++ "/templates/" ++ templateId
    let r := c'.get url none none none 200 none ownNet
    ([Call.request "GET" r.1.url], r.2))

end DocuSignClient

/-- Python `x.get(k)` on a decoded JSON value: `None` default on a dict,
`AttributeError` on anything else. -/
def pyDictGet (j : Json) (k : String) : Except PyError Json :=
  match j with
  | .obj kvs => .ok ((kvs.lookup k).getD Json.null)
  | _ => .error (.attributeError "object has no attribute get")

/-- Python `for _ in x`: iterate an iterable, `TypeError` otherwise. -/
def pyIterE (j : Json) : Except PyError (List Json) :=
  if j.iterable then .ok j.iter else
    .error (.typeError "object is not iterable")

mutual

/-- Structural equality of decoded JSON values (Python `==`); on dicts it
is insertion-order-sensitive, which is adequate here: it is only used to
compare audit-event field names, which are scalars. -/
def Json.beq : Json → Json → Bool
  | .null, .null => true
  | .bool a, .bool b => a == b
  | .num a, .num b => a == b
  | .str a, .str b => a == b
  | .arr xs, .arr ys => Json.beqList xs ys
  | .obj xs, .obj ys => Json.beqObj xs ys
  | _, _ => false

def Json.beqList : List Json → List Json → Bool
  | [], [] => true
  | x :: xs, y :: ys => Json.beq x y && Json.beqList xs ys
  | _, _ => false

def Json.beqObj : List (String × Json) → List (String × Json) → Bool
  | [], [] => true
  | (k1, v1) :: xs, (k2, v2) :: ys =>
      k1 == k2 && Json.beq v1 v2 && Json.beqObj xs ys
  | _, _ => false

end

/-- Python dict assignment with a decoded-JSON key (`event[name] = value`):
replace the value at an equal key (keeping the originally inserted key),
else append. -/
def jsonDictSet : List (Json × Json) → Json → Json → List (Json × Json)
  | [], k, v => [(k, v)]
  | (k', v') :: rest, k, v =>
      if Json.beq k' k then (k', v) :: rest
      else (k', v') :: jsonDictSet rest k v

/-- The inner loop of `get_audit_events`: one event dict from its
`eventFields` list (`event[field.get('name')] = field.get('value')`; the
assignment's right-hand side is evaluated first). -/
def eventFromFields (fields : List Json) :
    Except PyError (List (Json × Json)) :=
  fields.foldlM (fun ev f => do
    let v ← pyDictGet f "value"
    let n ← pyDictGet f "name"
    pure (jsonDictSet ev n v)) []

namespace DocuSignClient

/-- `DocuSignClient.get_audit_events`: fetch the audit events and flatten
each event's `eventFields` into a name/value dict. -/
def get_audit_events (c : DocuSignClient) (envelopeId : String)
    (loginNet ownNet : NetResult) : MRun (List (List (Json × Json))) :=
  accountMethod c loginNet (fun c' =>
    let url := "/accounts/" ++ c'.account_id ++ "/envelopes/" ++
      envelopeId ++ "/audit_events"
    let r := c'.get url none none none 200 none ownNet
    ([Call.request "GET" r.1.url],
     match r.2 with
     | .error e => .error e
     | .ok (.inr _) => .error (.attributeError "object has no attribute get")
     | .ok (.inl data) => do
         let ae ← pyDictGet data "auditEvents"
         let items ← pyIterE ae
         items.foldlM (fun events audit_event => do
           let fieldsJ ← pyDictGet audit_event "eventFields"
           let fields ← pyIterE fieldsJ
           let ev ← eventFromFields fields
           pure (events ++ [ev])) []))

end DocuSignClient

/-- One document part of the multipart body (the per-document format
string of `_create_envelope_from_document_request`, byte for byte,
including the space before the header-terminating CRLF); the file's bytes
are read after `seek(0)`. -/
def documentPart (document : Document) : String :=
  "--myboundary\r\n" ++
  "Content-Type:application/pdf\r\n" ++
  "Content-Disposition: file; " ++
  "filename=\"" ++ document.name ++ "\"; " ++
  "documentId=" ++ document.documentId ++ " \r\n" ++
  "\r\n" ++
  document.data.seek0Read ++ "\r\n" ++
  "\r\n"

/-- The accumulated `docs_body` of
`_create_envelope_from_document_request`: document parts in list order. -/
def docsBody (documents : List Document) : String :=
  String.join (documents.map documentPart)

/-- The `url`/`headers`/`body` dict that the envelope-creation request
builders return. -/
structure RequestParts where
  url : String
  headers : Dict
  body : String

namespace DocuSignClient

/-- `DocuSignClient._create_envelope_from_document_request`: the multipart
body is the fixed template - leading blank lines, the JSON part, a
boundary line, the document parts, and the closing delimiter - and the
headers override `Content-Type` with the multipart one and add
`Content-Length = len(body)` (bytes are modelled one character each). -/
def _create_envelope_from_document_request (c : DocuSignClient)
    (envelope : Envelope) (loginNet : NetResult) : MRun RequestParts :=
  accountMethod c loginNet (fun c' =>
    let url := c'.account_url ++ "/envelopes"
    let data := envelope.to_dict
    let body :=
      "\r\n" ++
      "\r\n" ++
      "--myboundary\r\n" ++
      "Content-Type: application/json; charset=UTF-8\r\n" ++
      "Content-Disposition: form-data\r\n" ++
      "\r\n" ++
      Json.dumps data ++ "\r\n" ++
      "--myboundary\r\n" ++
      docsBody envelope.documents ++
      "--myboundary--\r\n" ++
      "\r\n"
    let headers := dset
      (dset (c'.base_headers none) "Content-Type"
        "multipart/form-data; boundary=myboundary")
      "Content-Length" (toString body.length)
    ([], .ok ⟨url, headers, body⟩))

/-- `DocuSignClient._create_envelope_from_template_request`: same
template without document parts; the base headers honour the envelope's
`sobo_email`. -/
def _create_envelope_from_template_request (c : DocuSignClient)
    (envelope : Envelope) (loginNet : NetResult) : MRun RequestParts :=
  accountMethod c loginNet (fun c' =>
    let url := c'.account_url ++ "/envelopes"
    let data := envelope.to_dict
    let body :=
      "\r\n" ++
      "\r\n" ++
      "--myboundary\r\n" ++
      "Content-Type: application/json; charset=UTF-8\r\n" ++
      "Content-Disposition: form-data\r\n" ++
      "\r\n" ++
      Json.dumps data ++ "\r\n" ++
      "--myboundary--\r\n" ++
      "\r\n"
    let headers := dset
      (dset (c'.base_headers envelope.sobo_email) "Content-Type"
        "multipart/form-data; boundary=myboundary")
      "Content-Length" (toString body.length)
    ([], .ok ⟨url, headers, body⟩))

/-- `DocuSignClient._create_envelope`: the pycurl POST's response is given
as the `Response` namedtuple; `response_data` is the value
`json.loads(response.text)` decodes (the parse happens only after the
status check).  A status other than 201 raises `DocuSignException`
carrying the `Response`; otherwise `envelope.client` is set when it was
`None`, `envelope.envelopeId` is set from the server's `envelopeId` when
it was falsy, and the server's `envelopeId` is returned. -/
def _create_envelope (c : DocuSignClient) (envelope : Envelope)
    (parts : RequestParts) (response : Response) (response_data : Json) :
    Envelope × Except PyError Json :=
  if response.status_code ≠ 201 then
    (envelope, .error (.docuSignException (.resp response)))
  else
    let env1 :=
      match envelope.client with
      | none => { envelope with client := some c }
      | some _ => envelope
    match response_data.lookup "envelopeId" with
    | none => (env1, .error (.keyError "envelopeId"))
    | some v =>
        let env2 := if env1.envelopeId.falsy then
          { env1 with envelopeId := v } else env1
        (env2, .ok v)

end DocuSignClient

/-- Outcome of a full envelope-creation method: calls, client state,
envelope state and the Python result. -/
structure CreateRun where
  calls : List Call
  client : DocuSignClient
  envelope : Envelope
  result : Except PyError Json

namespace DocuSignClient

/-- `DocuSignClient.create_envelope_from_document`: build the multipart
request, POST it (pycurl, recorded as `Call.curlPost`), and handle the
response via `_create_envelope`. -/
def create_envelope_from_document (c : DocuSignClient) (envelope : Envelope)
    (loginNet : NetResult) (response : Response) (response_data : Json) :
    CreateRun :=
  let r := c._create_envelope_from_document_request envelope loginNet
  match r.result with
  | .error e => ⟨r.calls, r.client, envelope, .error e⟩
  | .ok parts =>
      let h := r.client._create_envelope envelope parts response response_data
      ⟨r.calls ++ [Call.curlPost parts.url], r.client, h.1, h.2⟩

/-- `DocuSignClient.create_envelope_from_template`: same flow through
`_create_envelope_from_template_request`. -/
def create_envelope_from_template (c : DocuSignClient) (envelope : Envelope)
    (loginNet : NetResult) (response : Response) (response_data : Json) :
    CreateRun :=
  let r := c._create_envelope_from_template_request envelope loginNet
  match r.result with
  | .error e => ⟨r.calls, r.client, envelope, .error e⟩
  | .ok parts =>
      let h := r.client._create_envelope envelope parts response response_data
      ⟨r.calls ++ [Call.curlPost parts.url], r.client, h.1, h.2⟩

end DocuSignClient

section Claims

open DocuSignClient

/-- The request `_request` sends, spelled out (helper). -/
theorem request_fst (c : DocuSignClient) (url method : String)
    (headers : Option Dict) (data : Option Json) (file_data : Option String)
    (e : Nat) (sobo : Option String) (net : NetResult) :
    (c._request url method headers data file_data e sobo net).1 =
      ⟨c.root_url ++ url, method,
       dupdate (c.base_headers sobo) (headers.getD []),
       if fileTruthy file_data then file_data
       else data.map Json.dumps⟩ := by
  unfold DocuSignClient._request
  cases net
  · rfl
  · dsimp only
    split_ifs <;> rfl

/-- C2: `base_headers` always contains `Accept: application/json` and
`Content-Type: application/json`; with a non-empty `oauth2_token` it adds
`Authorization: Bearer <token>` (plus `X-DocuSign-Act-As-User` when
`sobo_email` is given) and no `X-DocuSign-Authentication`; with an empty
token it instead adds `X-DocuSign-Authentication` with the JSON encoding
of the Username/Password/IntegratorKey dict (plus `SendOnBehalfOf` when
`sobo_email` is given) and no `Authorization`. -/
theorem claim_C2 (c : DocuSignClient) (sobo_email : Option String) :
    dget (c.base_headers sobo_email) "Accept" = some "application/json" ∧
    dget (c.base_headers sobo_email) "Content-Type" =
      some "application/json" ∧
    (c.oauth2_token ≠ "" →
      dget (c.base_headers sobo_email) "Authorization" =
        some ("Bearer " ++ c.oauth2_token) ∧
      (optTruthy sobo_email = true →
        dget (c.base_headers sobo_email) "X-DocuSign-Act-As-User" =
          some (sobo_email.getD "")) ∧
      dget (c.base_headers sobo_email) "X-DocuSign-Authentication" =
        none) ∧
    (c.oauth2_token = "" →
      dget (c.base_headers sobo_email) "X-DocuSign-Authentication" =
        some (Json.dumps (c.authDict sobo_email)) ∧
      dget (c.base_headers sobo_email) "Authorization" = none) := by
  by_cases htok : c.oauth2_token = "" <;>
    by_cases hsobo : optTruthy sobo_email <;>
      simp [DocuSignClient.base_headers, htok, hsobo, dget, dset,
        List.lookup]

/-- Witness for C2 at a concrete client in each auth mode. -/
theorem claim_C2_witness :
    dget ((⟨"r", "u", "p", "i", "a", "t", "tok", "au", 30⟩ :
        DocuSignClient).base_headers (some "boss")) "Authorization" =
      some ("Bearer " ++ "tok") ∧
    dget ((⟨"r", "u", "p", "i", "a", "t", "", "au", 30⟩ :
        DocuSignClient).base_headers none) "Authorization" = none := by
  refine ⟨(?_ : _), (?_ : _)⟩
  · exact ((claim_C2 ⟨"r", "u", "p", "i", "a", "t", "tok", "au", 30⟩
      (some "boss")).2.2.1 (by decide)).1
  · exact ((claim_C2 ⟨"r", "u", "p", "i", "a", "t", "", "au", 30⟩
      none).2.2.2 rfl).2

/-- C8: the timeout setter raises `ValueError` exactly for values below
0.001; otherwise it stores `int(value * 1000) / 1000` - a millisecond-
precise truncation of the value (the stored value times 1000 is an
integer, is at most the value, and is less than a millisecond below it);
setting 1.2345 stores 1.234; and constructing with `timeout=None` routes
the default 30 (or the environment override) through the same setter. -/
theorem claim_C8 :
    (∀ value : ℚ, value < 1 / 1000 →
      set_timeout value =
        .error (.valueError "Cannot set timeout lower than 0.001")) ∧
    (∀ value : ℚ, ¬ value < 1 / 1000 →
      ∃ q : ℚ, set_timeout value = .ok q ∧
        (q * 1000).den = 1 ∧ q ≤ value ∧ value - q < 1 / 1000) ∧
    set_timeout 1.2345 = .ok 1.234 ∧
    (∀ envTimeout : Option ℚ,
      init_timeout none envTimeout =
        set_timeout (envTimeout.getD 30)) ∧
    init_timeout none none = set_timeout 30 := by
  refine ⟨?_, ?_, ?_, ?_, rfl⟩
  · intro value h
    unfold set_timeout
    rw [if_pos h]
  · intro value h
    have hge : (1 : ℚ) / 1000 ≤ value := not_lt.mp h
    have hmul : (0 : ℚ) ≤ value * 1000 := by nlinarith
    have hp : pyInt (value * 1000) = ⌊value * 1000⌋ := by
      unfold pyInt
      rw [if_pos hmul]
    have hok : set_timeout value = .ok ((⌊value * 1000⌋ : ℚ) / 1000) := by
      unfold set_timeout
      rw [if_neg h, hp]
    refine ⟨(⌊value * 1000⌋ : ℚ) / 1000, hok, ?_, ?_, ?_⟩
    · rw [div_mul_cancel₀ _ (by norm_num : (1000 : ℚ) ≠ 0)]
      exact Rat.den_intCast _
    · rw [div_le_iff₀ (by norm_num : (0 : ℚ) < 1000)]
      exact Int.floor_le (value * 1000)
    · have h1 : value * 1000 < (⌊value * 1000⌋ : ℚ) + 1 :=
        Int.lt_floor_add_one _
      rw [sub_lt_iff_lt_add, div_add_div_same,
        lt_div_iff₀ (by norm_num : (0 : ℚ) < 1000)]
      linarith
  · have hp : pyInt ((1.2345 : ℚ) * 1000) = 1234 := by
      unfold pyInt
      rw [if_pos (by norm_num),
        show ((1.2345 : ℚ) * 1000) = 2469 / 2 by norm_num]
      norm_num
    unfold set_timeout
    rw [if_neg (by norm_num), hp]
    norm_num
  · intro envTimeout
    rfl

/-- Witness for C8: setting 0.0009 raises the `ValueError`. -/
theorem claim_C8_witness :
    set_timeout 0.0009 =
      .error (.valueError "Cannot set timeout lower than 0.001") :=
  claim_C8.1 0.0009 (by norm_num)

/-- C9: `get_account_information` never uses the value of a non-`None`
`account_id` argument - the outcome is independent of it and the URL is
built from the client's own stored `account_id`; with a `None` argument
the cached `account_url` is used as the path. -/
theorem claim_C9 (c : DocuSignClient) (a b : String) (net : NetResult) :
    c.get_account_information (some a) net =
      c.get_account_information (some b) net ∧
    (c.get_account_information (some a) net).1.url =
      c.root_url ++ ("/accounts/" ++ c.account_id ++ "/") ∧
    (c.get_account_information none net).1.url =
      c.root_url ++ c.account_url := by
  refine ⟨rfl, ?_, ?_⟩
  · show (c._request ("/accounts/" ++ c.account_id ++ "/") "GET"
      none none none 200 none net).1.url = _
    rw [request_fst]
  · show (c._request c.account_url "GET"
      none none none 200 none net).1.url = _
    rw [request_fst]

/-- C1: `_request` raises `DocuSignException` (with the message built from
the response) exactly when the response's status code differs from the
expected one, and returns a value (raising nothing) when it matches; the
`get`/`post`/`put`/`delete` wrappers are `_request` with the method fixed;
and `_create_envelope` raises `DocuSignException` carrying the `Response`
exactly when the status code is not 201. -/
theorem claim_C1 (c : DocuSignClient) (url method : String)
    (headers : Option Dict) (data : Option Json) (file_data : Option String)
    (expected_status_code : Nat) (sobo_email : Option String)
    (response : HttpResponse) (envelope : Envelope) (parts : RequestParts)
    (curlResponse : Response) (response_data : Json) :
    (response.status_code ≠ expected_status_code →
      (c._request url method headers data file_data expected_status_code
          sobo_email (.ok response)).2 =
        .error (.docuSignException (.str (requestFailedMsg method
          (c.root_url ++ url) response.status_code expected_status_code
          response.text)))) ∧
    (response.status_code = expected_status_code →
      ∃ v, (c._request url method headers data file_data
          expected_status_code sobo_email (.ok response)).2 = .ok v) ∧
    c.get url headers data file_data expected_status_code sobo_email
        (.ok response) =
      c._request url "GET" headers data file_data expected_status_code
        sobo_email (.ok response) ∧
    c.post url headers data file_data expected_status_code sobo_email
        (.ok response) =
      c._request url "POST" headers data file_data expected_status_code
        sobo_email (.ok response) ∧
    c.put url headers data file_data expected_status_code sobo_email
        (.ok response) =
      c._request url "PUT" headers data file_data expected_status_code
        sobo_email (.ok response) ∧
    c.delete url headers data file_data expected_status_code sobo_email
        (.ok response) =
      c._request url "DELETE" headers data file_data expected_status_code
        sobo_email (.ok response) ∧
    (curlResponse.status_code ≠ 201 ↔
      (c._create_envelope envelope parts curlResponse response_data).2 =
        .error (.docuSignException (.resp curlResponse))) := by
  refine ⟨?_, ?_, rfl, rfl, rfl, rfl, ?_, ?_⟩
  · intro h
    unfold DocuSignClient._request
    dsimp only
    rw [if_pos h]
  · intro h
    unfold DocuSignClient._request
    dsimp only
    rw [if_neg (not_not_intro h)]
    split_ifs <;> exact ⟨_, rfl⟩
  · intro h
    unfold DocuSignClient._create_envelope
    rw [if_pos h]
  · intro he
    intro h201
    unfold DocuSignClient._create_envelope at he
    rw [if_neg (not_not_intro h201)] at he
    dsimp only at he
    rcases hlk : response_data.lookup "envelopeId" with _ | v <;>
      rw [hlk] at he <;> dsimp only at he <;> simp at he

/-- Witness for C1: a 404 where 200 was expected raises the
`DocuSignException`, a matching 200 returns a value. -/
theorem claim_C1_witness :
    ((⟨"", "", "", "", "", "", "", "", 30⟩ :
        DocuSignClient)._request "" "GET" none none none 200 none
      (.ok ⟨404, "err", [], Json.null⟩)).2 =
      .error (.docuSignException (.str
        (requestFailedMsg "GET" ("" ++ "") 404 200 "err"))) ∧
    ∃ v, ((⟨"", "", "", "", "", "", "", "", 30⟩ :
        DocuSignClient)._request "" "GET" none none none 200 none
      (.ok ⟨200, "ok", [], Json.null⟩)).2 = .ok v := by
  constructor
  · exact (claim_C1 ⟨"", "", "", "", "", "", "", "", 30⟩ "" "GET" none none
      none 200 none ⟨404, "err", [], Json.null⟩
      ⟨Json.null, [], none, none, Json.null⟩ ⟨"", [], ""⟩ ⟨201, ""⟩
      Json.null).1 (by decide)
  · exact (claim_C1 ⟨"", "", "", "", "", "", "", "", 30⟩ "" "GET" none none
      none 200 none ⟨200, "ok", [], Json.null⟩
      ⟨Json.null, [], none, none, Json.null⟩ ⟨"", [], ""⟩ ⟨201, ""⟩
      Json.null).2.1 rfl

/-- C6: on a response with the expected status code, `_request` returns
the decoded JSON body when the response's `Content-Type` starts with
`application/json`, and the plain text otherwise. -/
theorem claim_C6 (c : DocuSignClient) (url method : String)
    (headers : Option Dict) (data : Option Json) (file_data : Option String)
    (expected_status_code : Nat) (sobo_email : Option String)
    (response : HttpResponse)
    (h : response.status_code = expected_status_code) :
    (startswith (respHeaderGet response "Content-Type")
        "application/json" = true →
      (c._request url method headers data file_data expected_status_code
          sobo_email (.ok response)).2 = .ok (.inl response.jsonBody)) ∧
    (startswith (respHeaderGet response "Content-Type")
        "application/json" = false →
      (c._request url method headers data file_data expected_status_code
          sobo_email (.ok response)).2 = .ok (.inr response.text)) := by
  constructor <;> intro hct <;>
    · unfold DocuSignClient._request
      dsimp only
      rw [if_neg (not_not_intro h)]
      simp [hct]

/-- Witness for C6: a JSON 200 response yields the decoded body, a plain
200 response yields the text. -/
theorem claim_C6_witness :
    ((⟨"", "", "", "", "", "", "", "", 30⟩ :
        DocuSignClient)._request "" "GET" none none none 200 none
      (.ok ⟨200, "t", [("Content-Type", "application/json")],
        Json.str "x"⟩)).2 = .ok (.inl (Json.str "x")) ∧
    ((⟨"", "", "", "", "", "", "", "", 30⟩ :
        DocuSignClient)._request "" "GET" none none none 200 none
      (.ok ⟨200, "t", [("Content-Type", "text/plain")],
        Json.str "x"⟩)).2 = .ok (.inr "t") := by
  constructor
  · exact (claim_C6 ⟨"", "", "", "", "", "", "", "", 30⟩ "" "GET" none none
      none 200 none ⟨200, "t", [("Content-Type", "application/json")],
        Json.str "x"⟩ rfl).1 rfl
  · exact (claim_C6 ⟨"", "", "", "", "", "", "", "", 30⟩ "" "GET" none none
      none 200 none ⟨200, "t", [("Content-Type", "text/plain")],
        Json.str "x"⟩ rfl).2 rfl

/-- C7: `oauth2_token_request` and `oauth2_token_revoke` raise
`DocuSignOAuth2Exception` (carrying the decoded response) exactly when the
status code is not 200; on 200 the former returns the response's
`access_token` field and the latter returns nothing; and the OAuth2
exception is a different type from the generic `DocuSignException`. -/
theorem claim_C7 (root_url username password integrator_key token : String)
    (response : HttpResponse) :
    (response.status_code ≠ 200 ↔
      (oauth2_token_request root_url username password integrator_key
          (.ok response)).2 =
        .error (.docuSignOAuth2Exception (.json response.jsonBody))) ∧
    (response.status_code ≠ 200 ↔
      (oauth2_token_revoke root_url token (.ok response)).2 =
        .error (.docuSignOAuth2Exception (.json response.jsonBody))) ∧
    (∀ v, response.status_code = 200 →
      response.jsonBody.lookup "access_token" = some v →
      (oauth2_token_request root_url username password integrator_key
          (.ok response)).2 = .ok v) ∧
    (response.status_code = 200 →
      (oauth2_token_revoke root_url token (.ok response)).2 = .ok ()) ∧
    (∀ a b, PyError.docuSignOAuth2Exception a ≠ PyError.docuSignException b) := by
  refine ⟨⟨?_, ?_⟩, ⟨?_, ?_⟩, ?_, ?_, ?_⟩
  · intro h
    unfold DocuSignClient.oauth2_token_request
    dsimp only
    rw [if_pos h]
  · intro he
    intro h200
    unfold DocuSignClient.oauth2_token_request at he
    dsimp only at he
    rw [if_neg (not_not_intro h200)] at he
    rcases hlk : response.jsonBody.lookup "access_token" with _ | v <;>
      rw [hlk] at he <;> simp at he
  · intro h
    unfold DocuSignClient.oauth2_token_revoke
    dsimp only
    rw [if_pos h]
  · intro he
    intro h200
    unfold DocuSignClient.oauth2_token_revoke at he
    dsimp only at he
    rw [if_neg (not_not_intro h200)] at he
    simp at he
  · intro v h200 hlk
    unfold DocuSignClient.oauth2_token_request
    dsimp only
    rw [if_neg (not_not_intro h200), hlk]
  · intro h200
    unfold DocuSignClient.oauth2_token_revoke
    dsimp only
    rw [if_neg (not_not_intro h200)]
  · intro a b
    exact fun h => PyError.noConfusion h

/-- Witness for C7: a 401 raises the OAuth2 exception; a 200 returns the
token / nothing. -/
theorem claim_C7_witness :
    (oauth2_token_request "r" "u" "p" "i"
      (.ok ⟨401, "", [], Json.str "denied"⟩)).2 =
      .error (.docuSignOAuth2Exception (.json (Json.str "denied"))) ∧
    (oauth2_token_request "r" "u" "p" "i"
      (.ok ⟨200, "", [],
        Json.obj [("access_token", Json.str "tok")]⟩)).2 =
      .ok (Json.str "tok") ∧
    (oauth2_token_revoke "r" "tok" (.ok ⟨200, "", [], Json.null⟩)).2 =
      .ok () := by
  refine ⟨?_, ?_, ?_⟩
  · exact (claim_C7 "r" "u" "p" "i" "tok"
      ⟨401, "", [], Json.str "denied"⟩).1.mp (by decide)
  · exact (claim_C7 "r" "u" "p" "i" "tok"
      ⟨200, "", [], Json.obj [("access_token", Json.str "tok")]⟩).2.2.1
      (Json.str "tok") rfl rfl
  · exact (claim_C7 "r" "u" "p" "i" "tok"
      ⟨200, "", [], Json.null⟩).2.2.2.1 rfl

/-- C5: a successful `login_information` call stores the first
`loginAccounts` entry's `accountId` in `account_id`, sets `account_url` to
`root_url` + `/accounts/` + that id, changes no other client field, and
returns the full decoded response (which is the response's JSON body). -/
theorem claim_C5 (c c' : DocuSignClient) (net : NetResult) (data : Json)
    (h : c.login_information net = .ok (c', data)) :
    ∃ first rest aid,
      data.lookup "loginAccounts" = some (Json.arr (first :: rest)) ∧
      first.lookup "accountId" = some aid ∧
      c'.account_id = pyStr aid ∧
      c'.account_url = c.root_url ++ "/accounts/" ++ pyStr aid ∧
      c'.root_url = c.root_url ∧ c'.username = c.username ∧
      c'.password = c.password ∧ c'.integrator_key = c.integrator_key ∧
      c'.app_token = c.app_token ∧ c'.oauth2_token = c.oauth2_token ∧
      c'.timeout = c.timeout ∧
      (∀ response : HttpResponse, net = .ok response →
        data = response.jsonBody) := by
  unfold DocuSignClient.login_information at h
  rcases hr : (c.get "/login_information" (some []) none none 200 none
      net).2 with e | jv
  · rw [hr] at h
    simp at h
  rw [hr] at h
  rcases jv with data0 | txt
  swap
  · simp at h
  dsimp only at h
  rcases hlk : data0.lookup "loginAccounts" with _ | acc <;> rw [hlk] at h
  · simp at h
  rcases acc with _ | b | n | s | xs | kvs <;> try simp at h
  rcases xs with _ | ⟨first, rest⟩
  · simp at h
  dsimp only at h
  rcases haid : first.lookup "accountId" with _ | aid <;> rw [haid] at h
  · simp at h
  dsimp only at h
  simp only [Except.ok.injEq, Prod.mk.injEq] at h
  obtain ⟨hc, hd⟩ := h
  subst hd
  subst hc
  refine ⟨first, rest, aid, hlk, haid, rfl, rfl, rfl, rfl, rfl, rfl, rfl,
    rfl, rfl, ?_⟩
  intro response hnet
  subst hnet
  unfold DocuSignClient.get DocuSignClient._request at hr
  dsimp only at hr
  split_ifs at hr <;> simp_all

/-- Witness for C5 at a concrete login exchange. -/
theorem claim_C5_witness :
    ∃ first rest aid,
      (Json.obj [("loginAccounts",
        Json.arr [Json.obj [("accountId", Json.str "123")]])]).lookup
          "loginAccounts" = some (Json.arr (first :: rest)) ∧
      first.lookup "accountId" = some aid ∧
      (⟨"https://demo", "u", "p", "i", "123", "", "",
        "https://demo" ++ "/accounts/" ++ "123", 30⟩ :
          DocuSignClient).account_id = pyStr aid ∧
      (⟨"https://demo", "u", "p", "i", "123", "", "",
        "https://demo" ++ "/accounts/" ++ "123", 30⟩ :
          DocuSignClient).account_url =
        (⟨"https://demo", "u", "p", "i", "", "", "", "", 30⟩ :
          DocuSignClient).root_url ++ "/accounts/" ++ pyStr aid ∧
      (⟨"https://demo", "u", "p", "i", "123", "", "",
        "https://demo" ++ "/accounts/" ++ "123", 30⟩ :
          DocuSignClient).root_url =
        (⟨"https://demo", "u", "p", "i", "", "", "", "", 30⟩ :
          DocuSignClient).root_url ∧
      (⟨"https://demo", "u", "p", "i", "123", "", "",
        "https://demo" ++ "/accounts/" ++ "123", 30⟩ :
          DocuSignClient).username = "u" ∧
      (⟨"https://demo", "u", "p", "i", "123", "", "",
        "https://demo" ++ "/accounts/" ++ "123", 30⟩ :
          DocuSignClient).password = "p" ∧
      (⟨"https://demo", "u", "p", "i", "123", "", "",
        "https://demo" ++ "/accounts/" ++ "123", 30⟩ :
          DocuSignClient).integrator_key = "i" ∧
      (⟨"https://demo", "u", "p", "i", "123", "", "",
        "https://demo" ++ "/accounts/" ++ "123", 30⟩ :
          DocuSignClient).app_token = "" ∧
      (⟨"https://demo", "u", "p", "i", "123", "", "",
        "https://demo" ++ "/accounts/" ++ "123", 30⟩ :
          DocuSignClient).oauth2_token = "" ∧
      (⟨"https://demo", "u", "p", "i", "123", "", "",
        "https://demo" ++ "/accounts/" ++ "123", 30⟩ :
          DocuSignClient).timeout = 30 ∧
      (∀ response : HttpResponse,
        (.ok ⟨200, "body", [("Content-Type", "application/json")],
          Json.obj [("loginAccounts",
            Json.arr [Json.obj [("accountId", Json.str "123")]])]⟩ :
            NetResult) = .ok response →
        Json.obj [("loginAccounts",
          Json.arr [Json.obj [("accountId", Json.str "123")]])] =
          response.jsonBody) :=
  claim_C5 ⟨"https://demo", "u", "p", "i", "", "", "", "", 30⟩
    ⟨"https://demo", "u", "p", "i", "123", "", "",
      "https://demo" ++ "/accounts/" ++ "123", 30⟩
    (.ok ⟨200, "body", [("Content-Type", "application/json")],
      Json.obj [("loginAccounts",
        Json.arr [Json.obj [("accountId", Json.str "123")]])]⟩)
    (Json.obj [("loginAccounts",
      Json.arr [Json.obj [("accountId", Json.str "123")]])]) rfl

/-- What `_create_envelope` does on a 201 response whose decoded body has
an `envelopeId` (helper). -/
theorem create_envelope_eq (c : DocuSignClient) (envelope : Envelope)
    (parts : RequestParts) (response : Response) (response_data : Json)
    (v : Json) (h201 : response.status_code = 201)
    (hv : response_data.lookup "envelopeId" = some v) :
    c._create_envelope envelope parts response response_data =
      (⟨envelope.to_dict, envelope.documents, envelope.sobo_email,
        (match envelope.client with
         | none => some c
         | some cl => some cl),
        (if envelope.envelopeId.falsy then v else envelope.envelopeId)⟩,
       .ok v) := by
  obtain ⟨td, docs, se, cl, eid⟩ := envelope
  unfold DocuSignClient._create_envelope
  rw [if_neg (not_not_intro h201)]
  dsimp only
  rw [hv]
  rcases cl with _ | cl <;> by_cases hf : eid.falsy <;> simp [hf]

/-- C10: on a 201 response, `_create_envelope` sets `envelope.client` only
when it was `None`, sets `envelope.envelopeId` from the server only when
it was falsy (an already-set id stays, even when the server returned a
different one), leaves the other envelope attributes alone, and always
returns the server's `envelopeId`; `create_envelope_from_document` and
`create_envelope_from_template` return the same value. -/
theorem claim_C10 (c : DocuSignClient) (envelope : Envelope)
    (parts : RequestParts) (response : Response) (response_data : Json)
    (v : Json) (loginNet : NetResult)
    (h201 : response.status_code = 201)
    (hv : response_data.lookup "envelopeId" = some v) :
    (c._create_envelope envelope parts response response_data).2 = .ok v ∧
    (envelope.client = none →
      (c._create_envelope envelope parts response response_data).1.client =
        some c) ∧
    (∀ cl, envelope.client = some cl →
      (c._create_envelope envelope parts response response_data).1.client =
        some cl) ∧
    (envelope.envelopeId.falsy = true →
      (c._create_envelope envelope parts response
        response_data).1.envelopeId = v) ∧
    (envelope.envelopeId.falsy = false →
      (c._create_envelope envelope parts response
        response_data).1.envelopeId = envelope.envelopeId) ∧
    (c._create_envelope envelope parts response response_data).1.to_dict =
      envelope.to_dict ∧
    (c._create_envelope envelope parts response response_data).1.documents =
      envelope.documents ∧
    (c._create_envelope envelope parts response
      response_data).1.sobo_email = envelope.sobo_email ∧
    (c.account_url ≠ "" →
      (c.create_envelope_from_document envelope loginNet response
        response_data).result = .ok v ∧
      (c.create_envelope_from_template envelope loginNet response
        response_data).result = .ok v) := by
  have he := create_envelope_eq c envelope parts response response_data v
    h201 hv
  refine ⟨?_, ?_, ?_, ?_, ?_, ?_, ?_, ?_, ?_⟩
  · rw [he]
  · intro hcl
    rw [he]
    simp [hcl]
  · intro cl hcl
    rw [he]
    simp [hcl]
  · intro hf
    rw [he]
    simp [hf]
  · intro hf
    rw [he]
    simp [hf]
  · rw [he]
  · rw [he]
  · rw [he]
  · intro hacct
    constructor
    · unfold DocuSignClient.create_envelope_from_document
        DocuSignClient._create_envelope_from_document_request
        DocuSignClient.accountMethod DocuSignClient.ensureAccount
      rw [if_neg hacct]
      dsimp only
      rw [create_envelope_eq c envelope _ response response_data v h201 hv]
    · unfold DocuSignClient.create_envelope_from_template
        DocuSignClient._create_envelope_from_template_request
        DocuSignClient.accountMethod DocuSignClient.ensureAccount
      rw [if_neg hacct]
      dsimp only
      rw [create_envelope_eq c envelope _ response response_data v h201 hv]

/-- Witness for C10: a fresh envelope gets the server's id; an envelope
with an id keeps it although the server answered a different one; the
returned value is the server's id in both cases. -/
theorem claim_C10_witness :
    ((⟨"r", "", "", "", "", "", "", "au", 30⟩ :
        DocuSignClient)._create_envelope
      ⟨Json.null, [], none, none, Json.str ""⟩ ⟨"", [], ""⟩ ⟨201, "t"⟩
      (Json.obj [("envelopeId", Json.str "E")])).1.envelopeId =
        Json.str "E" ∧
    ((⟨"r", "", "", "", "", "", "", "au", 30⟩ :
        DocuSignClient)._create_envelope
      ⟨Json.null, [], none, none, Json.str "OLD"⟩ ⟨"", [], ""⟩ ⟨201, "t"⟩
      (Json.obj [("envelopeId", Json.str "E")])).1.envelopeId =
        Json.str "OLD" ∧
    ((⟨"r", "", "", "", "", "", "", "au", 30⟩ :
        DocuSignClient)._create_envelope
      ⟨Json.null, [], none, none, Json.str "OLD"⟩ ⟨"", [], ""⟩ ⟨201, "t"⟩
      (Json.obj [("envelopeId", Json.str "E")])).2 = .ok (Json.str "E") := by
  refine ⟨?_, ?_, ?_⟩
  · exact (claim_C10 ⟨"r", "", "", "", "", "", "", "au", 30⟩
      ⟨Json.null, [], none, none, Json.str ""⟩ ⟨"", [], ""⟩ ⟨201, "t"⟩
      (Json.obj [("envelopeId", Json.str "E")]) (Json.str "E")
      (.error "") rfl rfl).2.2.2.1 rfl
  · exact (claim_C10 ⟨"r", "", "", "", "", "", "", "au", 30⟩
      ⟨Json.null, [], none, none, Json.str "OLD"⟩ ⟨"", [], ""⟩ ⟨201, "t"⟩
      (Json.obj [("envelopeId", Json.str "E")]) (Json.str "E")
      (.error "") rfl rfl).2.2.2.2.1 rfl
  · exact (claim_C10 ⟨"r", "", "", "", "", "", "", "au", 30⟩
      ⟨Json.null, [], none, none, Json.str "OLD"⟩ ⟨"", [], ""⟩ ⟨201, "t"⟩
      (Json.obj [("envelopeId", Json.str "E")]) (Json.str "E")
      (.error "") rfl rfl).1

/-- C3: for every envelope, the multipart request built by
`_create_envelope_from_document_request` has exactly the boundary-
`myboundary` template body - the JSON part first, then one
`application/pdf` part per document carrying its filename, documentId and
bytes read from position 0, closed by the `--myboundary--` delimiter - and
headers declaring the multipart content type and a `Content-Length` equal
to the body's length. -/
theorem claim_C3 (c : DocuSignClient) (envelope : Envelope)
    (loginNet : NetResult) (h : c.account_url ≠ "") :
    ∃ parts : RequestParts,
      (c._create_envelope_from_document_request envelope loginNet).result =
        .ok parts ∧
      parts.body =
        "\r\n" ++ "\r\n" ++ "--myboundary\r\n" ++
        "Content-Type: application/json; charset=UTF-8\r\n" ++
        "Content-Disposition: form-data\r\n" ++ "\r\n" ++
        Json.dumps envelope.to_dict ++ "\r\n" ++
        "--myboundary\r\n" ++
        String.join (envelope.documents.map (fun d =>
          "--myboundary\r\n" ++ "Content-Type:application/pdf\r\n" ++
          "Content-Disposition: file; " ++ "filename=\"" ++ d.name ++
          "\"; " ++ "documentId=" ++ d.documentId ++ " \r\n" ++ "\r\n" ++
          d.data.content ++ "\r\n" ++ "\r\n")) ++
        "--myboundary--\r\n" ++ "\r\n" ∧
      dget parts.headers "Content-Type" =
        some "multipart/form-data; boundary=myboundary" ∧
      dget parts.headers "Content-Length" =
        some (toString parts.body.length) ∧
      parts.url = c.account_url ++ "/envelopes" := by
  unfold DocuSignClient._create_envelope_from_document_request
    DocuSignClient.accountMethod DocuSignClient.ensureAccount
  rw [if_neg h]
  dsimp only
  refine ⟨_, rfl, rfl, ?_, ?_, rfl⟩ <;>
    by_cases htok : c.oauth2_token = "" <;>
      simp [DocuSignClient.base_headers, htok, optTruthy, dget, dset,
        List.lookup]

/-- Witness for C3: the parts built for a one-document envelope over a
client with a cached account URL. -/
theorem claim_C3_witness :
    ∃ parts : RequestParts,
      ((⟨"r", "u", "p", "i", "a", "t", "", "au", 30⟩ :
          DocuSignClient)._create_envelope_from_document_request
        ⟨Json.obj [], [⟨"f.pdf", "1", ⟨"PDFBYTES", 3⟩⟩], none, none,
          Json.null⟩ (.error "net")).result = .ok parts ∧
      parts.body =
        "\r\n" ++ "\r\n" ++ "--myboundary\r\n" ++
        "Content-Type: application/json; charset=UTF-8\r\n" ++
        "Content-Disposition: form-data\r\n" ++ "\r\n" ++
        Json.dumps (Json.obj []) ++ "\r\n" ++
        "--myboundary\r\n" ++
        String.join ([(⟨"f.pdf", "1", ⟨"PDFBYTES", 3⟩⟩ : Document)].map
          (fun d =>
          "--myboundary\r\n" ++ "Content-Type:application/pdf\r\n" ++
          "Content-Disposition: file; " ++ "filename=\"" ++ d.name ++
          "\"; " ++ "documentId=" ++ d.documentId ++ " \r\n" ++ "\r\n" ++
          d.data.content ++ "\r\n" ++ "\r\n")) ++
        "--myboundary--\r\n" ++ "\r\n" ∧
      dget parts.headers "Content-Type" =
        some "multipart/form-data; boundary=myboundary" ∧
      dget parts.headers "Content-Length" =
        some (toString parts.body.length) ∧
      parts.url = (⟨"r", "u", "p", "i", "a", "t", "", "au", 30⟩ :
        DocuSignClient).account_url ++ "/envelopes" :=
  claim_C3 ⟨"r", "u", "p", "i", "a", "t", "", "au", 30⟩
    ⟨Json.obj [], [⟨"f.pdf", "1", ⟨"PDFBYTES", 3⟩⟩], none, none, Json.null⟩
    (.error "net") (by decide)

/-- The lazy-login discipline: the `login_information` prelude runs first
exactly when the client has no cached `account_url`. -/
def loginLazily (calls : List Call) (c : DocuSignClient) : Prop :=
  (c.account_url = "" → calls.head? = some Call.login) ∧
  (c.account_url ≠ "" → Call.login ∉ calls)

/-- Every method built on `accountMethod` whose own body performs no login
call follows the lazy-login discipline (helper). -/
theorem accountMethod_lazy {α : Type} (c : DocuSignClient) (ln : NetResult)
    (k : DocuSignClient → List Call × Except PyError α)
    (hk : ∀ c', Call.login ∉ (k c').1) :
    loginLazily (DocuSignClient.accountMethod c ln k).calls c := by
  constructor
  · intro h
    unfold DocuSignClient.accountMethod DocuSignClient.ensureAccount
    rw [if_pos h]
    rcases hli : c.login_information ln with e | p <;> simp [hli]
  · intro h
    unfold DocuSignClient.accountMethod DocuSignClient.ensureAccount
    rw [if_neg h]
    dsimp only
    simpa using hk c

/-- C4: every account-scoped operation - envelope get/void/send/delete/
search, custom-field get/post/put, recipient get/post/put, document
list/get/upload/delete, template get, audit events, and both
envelope-creation request builders - runs the `login_information` prelude
first exactly when `account_url` is empty, and performs no login call when
it is already set. -/
theorem claim_C4 (c : DocuSignClient) (ln ow : NetResult)
    (eid tid did doc_id ct fn fd : String) (tcf lcf vr dj : Json)
    (ids : List String) (cf cfv st am : Option String)
    (file_data : Option String) (params : Dict)
    (cuid em rurl uid uname : String) (envelope : Envelope) :
    loginLazily (c.get_envelope eid ln ow).calls c ∧
    loginLazily (c.void_envelope eid vr ln ow).calls c ∧
    loginLazily (c.send_envelope eid ln ow).calls c ∧
    loginLazily (c.delete_envelope ids ln ow).calls c ∧
    loginLazily (c.search_envelopes cf cfv st fd ln ow).calls c ∧
    loginLazily (c.get_envelope_custom_fields eid ln ow).calls c ∧
    loginLazily (c.post_envelope_custom_fields eid tcf lcf ln ow).calls c ∧
    loginLazily (c.put_envelope_custom_fields eid tcf lcf ln ow).calls c ∧
    loginLazily (c.get_envelope_recipients eid ln ow).calls c ∧
    loginLazily
      (c.post_recipient_view am cuid em eid rurl uid uname ln ow).calls c ∧
    loginLazily (c.put_envelope_recipients eid dj params ln ow).calls c ∧
    loginLazily (c.get_envelope_document_list eid ln ow).calls c ∧
    loginLazily (c.get_envelope_document eid did ln ow).calls c ∧
    loginLazily
      (c.upload_document_to_envelope eid doc_id ct fn file_data ln ow).calls
      c ∧
    loginLazily (c.delete_envelope_documents eid dj ln ow).calls c ∧
    loginLazily (c.get_template tid ln ow).calls c ∧
    loginLazily (c.get_audit_events eid ln ow).calls c ∧
    loginLazily
      (c._create_envelope_from_document_request envelope ln).calls c ∧
    loginLazily
      (c._create_envelope_from_template_request envelope ln).calls c := by
  refine ⟨?_, ?_, ?_, ?_, ?_, ?_, ?_, ?_, ?_, ?_, ?_, ?_, ?_, ?_, ?_, ?_,
    ?_, ?_, ?_⟩ <;>
    exact accountMethod_lazy _ _ _ (fun c' => by simp)

/-- Witness for C4: with an empty `account_url` the first call of
`get_envelope` is the login; with a cached one no login happens. -/
theorem claim_C4_witness :
    ((⟨"r", "u", "p", "i", "a", "t", "", "", 30⟩ :
        DocuSignClient).get_envelope "e" (.error "x")
      (.error "y")).calls.head? = some Call.login ∧
    Call.login ∉ ((⟨"r", "u", "p", "i", "a", "t", "", "au", 30⟩ :
        DocuSignClient).get_envelope "e" (.error "x")
      (.error "y")).calls := by
  constructor
  · exact ((claim_C4 ⟨"r", "u", "p", "i", "a", "t", "", "", 30⟩
      (.error "x") (.error "y") "e" "" "" "" "" "" "" Json.null Json.null
      Json.null Json.null [] none none none none none [] "" "" "" "" ""
      ⟨Json.null, [], none, none, Json.null⟩).1).1 rfl
  · exact ((claim_C4 ⟨"r", "u", "p", "i", "a", "t", "", "au", 30⟩
      (.error "x") (.error "y") "e" "" "" "" "" "" "" Json.null Json.null
      Json.null Json.null [] none none none none none [] "" "" "" "" ""
      ⟨Json.null, [], none, none, Json.null⟩).1).2 (by decide)

end Claims
